import Mathlib

/-!
Formal model of the client-side scripts of the Digital-GetService repository.

The repository ships three browser modules:
* `static/js/main.js` — a navbar scroll watcher toggling an `is-scrolled` class;
* `static/js/register.js` — a password-strength scorer, a strength label mapper
  and a phone-number-origin detector with localized label tables;
* `static/js/admin-chat.js` — an admin chat widget: URL building, HTML escaping,
  roster and message rendering, REST loading and sending, a push-channel
  message handler and a fixed-delay reconnect loop.

Each JavaScript function is embedded as an executable Lean definition; network
and DOM effects are made explicit (event traces, state records, class lists).
-/

/-! ### Shared JavaScript semantics helpers -/

/-- Characters matched by the JavaScript regular-expression class `\s`
(ASCII whitespace plus the no-break space). -/
def isJsSpace (c : Char) : Bool :=
  c == ' ' || c == '\t' || c == '\n' || c == '\r' || c == '\x0b' || c == '\x0c' ||
    c == '\u00A0'

/-- JavaScript `String.prototype.trim`: drop leading and trailing whitespace. -/
def jsTrim (s : String) : String :=
  String.mk (((s.toList.dropWhile isJsSpace).reverse.dropWhile isJsSpace).reverse)

/-- Truthiness of a JavaScript variable holding either `null` or a number:
`null` and `0` are falsy, every other number is truthy. -/
def jsTruthyId : Option Int → Bool
  | none => false
  | some n => n != 0

/-! ### main.js — navbar scroll watcher -/

/-- DOM `classList.add`: appends the class only when it is not already present. -/
def classListAdd (classes : List String) (c : String) : List String :=
  if c ∈ classes then classes else classes ++ [c]

/-- DOM `classList.remove`: removes every occurrence of the class. -/
def classListRemove (classes : List String) (c : String) : List String :=
  classes.filter (fun x => x != c)

/-- Scroll handler of main.js: when the vertical scroll offset exceeds 32 the
navbar gains the class `is-scrolled`, otherwise the class is removed. -/
def scrollHandler (scrollY : Int) (navbarClasses : List String) : List String :=
  if scrollY > 32 then classListAdd navbarClasses "is-scrolled"
  else classListRemove navbarClasses "is-scrolled"

/-! ### register.js — localized labels, password strength, phone detection -/

/-- One locale entry of the `labels` table in register.js. The JavaScript key
`local` is rendered here as `localLabel` because `local` is a Lean keyword. -/
structure LocaleLabels where
  weak : String
  medium : String
  good : String
  strong : String
  strength : String
  phone : String
  cm : String
  fr : String
  de : String
  us : String
  localLabel : String
  unknown : String
deriving DecidableEq

/-- The `labels.fr` table of register.js. -/
def labelsFr : LocaleLabels :=
  { weak := "Faible", medium := "Moyen", good := "Bon", strong := "Fort",
    strength := "Force du mot de passe", phone := "Detection du numero",
    cm := "Cameroun", fr := "France", de := "Allemagne", us := "USA/Canada",
    localLabel := "Local", unknown := "Inconnu" }

/-- The `labels.en` table of register.js. -/
def labelsEn : LocaleLabels :=
  { weak := "Weak", medium := "Medium", good := "Good", strong := "Strong",
    strength := "Password strength", phone := "Phone detection",
    cm := "Cameroon", fr := "France", de := "Germany", us := "USA/Canada",
    localLabel := "Local", unknown := "Unknown" }

/-- The `labels.de` table of register.js. -/
def labelsDe : LocaleLabels :=
  { weak := "Schwach", medium := "Mittel", good := "Gut", strong := "Stark",
    strength := "Passwortstarke", phone := "Nummernerkennung",
    cm := "Kamerun", fr := "Frankreich", de := "Deutschland", us := "USA/Kanada",
    localLabel := "Lokal", unknown := "Unbekannt" }

/-- Lookup `labels[lang] || labels.fr` of register.js. -/
def getLabels (lang : String) : LocaleLabels :=
  if lang == "fr" then labelsFr
  else if lang == "en" then labelsEn
  else if lang == "de" then labelsDe
  else labelsFr

/-- The `passwordStrength` function of register.js: one point per satisfied
criterion (length at least 8, an upper-case letter, a lower-case letter,
a digit, a non-alphanumeric character). -/
def passwordStrength (value : String) : Nat :=
  let score : Nat := 0
  let score := if decide (value.length ≥ 8) then score + 1 else score
  let score := if value.toList.any Char.isUpper then score + 1 else score
  let score := if value.toList.any Char.isLower then score + 1 else score
  let score := if value.toList.any Char.isDigit then score + 1 else score
  let score := if value.toList.any (fun c => !c.isAlphanum) then score + 1 else score
  score

/-- The five password criteria of register.js, as a list of Booleans. -/
def passwordCriteria (value : String) : List Bool :=
  [decide (value.length ≥ 8),
   value.toList.any Char.isUpper,
   value.toList.any Char.isLower,
   value.toList.any Char.isDigit,
   value.toList.any (fun c => !c.isAlphanum)]

/-- Number of satisfied password criteria. -/
def satisfiedCriteria (value : String) : Nat :=
  (passwordCriteria value).count true

/-- The `strengthText` function of register.js mapping a score to a label. -/
def strengthText (d : LocaleLabels) (score : Nat) : String :=
  if score ≤ 2 then d.weak
  else if score ≤ 3 then d.medium
  else if score ≤ 4 then d.good
  else d.strong

/-- Removal of all whitespace, the `raw.replace` step of `detectPhone`. -/
def stripJsWhitespace (raw : String) : String :=
  String.mk (raw.toList.filter (fun c => !isJsSpace c))

/-- Test of the regular expression matching strings starting with `+237`. -/
def matchCm (v : String) : Bool := "+237".toList.isPrefixOf v.toList

/-- Test of the regular expression matching strings starting with `+33`. -/
def matchFr (v : String) : Bool := "+33".toList.isPrefixOf v.toList

/-- Test of the regular expression matching strings starting with `+49`. -/
def matchDe (v : String) : Bool := "+49".toList.isPrefixOf v.toList

/-- Test of the regular expression matching strings starting with `+1`. -/
def matchUs (v : String) : Bool := "+1".toList.isPrefixOf v.toList

/-- Test of the regular expression matching a leading `0` followed by at
least eight digits. -/
def matchLocal (v : String) : Bool :=
  match v.toList with
  | [] => false
  | c :: rest => c == '0' && decide (rest.length ≥ 8) && (rest.take 8).all Char.isDigit

/-- The five positive classification rules of `detectPhone`, in priority order. -/
def phoneRuleMatches (v : String) : List Bool :=
  [matchCm v, matchFr v, matchDe v, matchUs v, matchLocal v]

/-- The `detectPhone` function of register.js. -/
def detectPhone (d : LocaleLabels) (raw : String) : String :=
  let value := stripJsWhitespace raw
  if matchCm value then d.cm
  else if matchFr value then d.fr
  else if matchDe value then d.de
  else if matchUs value then d.us
  else if matchLocal value then d.localLabel
  else d.unknown

/-! ### admin-chat.js — URL building and HTML escaping -/

/-- Removal of all trailing slashes, the `apiBase.replace` step of `withApi`. -/
def stripTrailingSlashes (s : String) : String :=
  String.mk ((s.toList.reverse.dropWhile (fun c => c == '/')).reverse)

/-- Removal of all leading slashes, the `path.replace` step of `withApi`. -/
def stripLeadingSlashes (s : String) : String :=
  String.mk (s.toList.dropWhile (fun c => c == '/'))

/-- The `withApi` URL builder of admin-chat.js: the base without trailing
slashes, one slash, the path without leading slashes. -/
def withApi (apiBase : String) (path : String) : String :=
  stripTrailingSlashes apiBase ++ "/" ++ stripLeadingSlashes path

/-- Expansion of one character under the browser serialization used by the
`escapeHtml` helper (a text node read back through `innerHTML`). -/
def escapeHtmlChar (c : Char) : List Char :=
  if c == '&' then "&amp;".toList
  else if c == '<' then "&lt;".toList
  else if c == '>' then "&gt;".toList
  else if c == '\u00A0' then "&nbsp;".toList
  else [c]

/-- The `escapeHtml` function of admin-chat.js. -/
def escapeHtml (value : String) : String :=
  String.mk (value.toList.flatMap escapeHtmlChar)

/-! ### admin-chat.js — data model -/

/-- Roster entry delivered by the `chat_users` endpoint. -/
structure ChatUser where
  id : Int
  full_name : String
  email : String
  role : String
deriving DecidableEq

/-- Message delivered by the `chat_fetch` endpoint. -/
structure ChatMessage where
  sender_id : Int
  sender_name : String
  content : String
  created_at : String
deriving DecidableEq

/-- Static configuration read from the layout data attributes. -/
structure ChatConfig where
  currentUserId : Int
  csrfToken : String
  apiBase : String
deriving DecidableEq

/-- Client-visible DOM and memory state of the chat widget. -/
structure ClientState where
  users : List ChatUser
  selectedUserId : Option Int
  usersHtml : String
  messagesHtml : String
  headerText : String
  inputDisabled : Bool
  sendButtonDisabled : Bool
deriving DecidableEq

/-- Network and push-channel effects emitted by the chat operations. -/
inductive NetEvent where
  | getUsers (url : String) (sameOriginCredentials : Bool)
  | getMessages (url : String) (sameOriginCredentials : Bool)
  | postSend (url : String) (targetId : Int) (message : String)
      (csrfHeader : String) (sameOriginCredentials : Bool)
  | wsSend (eventType : String) (targetUserId : Int) (senderUserId : Int)
      (conversationId : Int) (messageId : Int)
deriving DecidableEq

/-- Parsed JSON body of a successful `chat_users` response; `users` is the
optional `users` field defaulted to the empty list by `data.users || []`. -/
structure UsersResponse where
  users : Option (List ChatUser)
deriving DecidableEq

/-- The `target_user` object of a `chat_fetch` response. -/
structure TargetUser where
  full_name : String
deriving DecidableEq

/-- Parsed JSON body of a successful `chat_fetch` response. -/
structure FetchResponse where
  target_user : TargetUser
  messages : Option (List ChatMessage)
deriving DecidableEq

/-- Parsed JSON body of a successful `chat_send` response. -/
structure SendResponse where
  target_id : Int
  conversation_id : Int
  message_id : Int
deriving DecidableEq

/-- Inbound push-channel payload, when it parses as an object; the identifier
fields are optional and defaulted to 0 by `Number(... || 0)`. -/
structure WsPayload where
  type : String
  sender_user_id : Option Int
  target_user_id : Option Int
deriving DecidableEq

/-! ### admin-chat.js — rendering -/

/-- Markup of one roster entry, the template inside `renderUsers`. -/
def renderUserItem (selectedUserId : Option Int) (user : ChatUser) : String :=
  let active := if some user.id == selectedUserId then "active" else ""
  "\n                <div class=\"chat-user-item " ++ active ++
    "\" data-user-id=\"" ++ toString user.id ++
    "\">\n                    <strong>" ++ escapeHtml user.full_name ++
    "</strong>\n                    <div class=\"small text-muted\">" ++
    escapeHtml user.email ++ " | " ++ escapeHtml user.role ++
    "</div>\n                </div>\n            "

/-- Markup written to the roster container by `renderUsers`. -/
def renderUsersHtml (selectedUserId : Option Int) (users : List ChatUser) : String :=
  String.join (users.map (renderUserItem selectedUserId))

/-- Markup of one chat bubble, the template inside `renderMessages`. -/
def renderMessageItem (currentUserId : Int) (message : ChatMessage) : String :=
  let bubbleType := if message.sender_id == currentUserId then "self" else "other"
  "\n                <div class=\"chat-bubble " ++ bubbleType ++
    "\">\n                    <div>" ++ escapeHtml message.content ++
    "</div>\n                    <span class=\"chat-meta\">" ++
    escapeHtml message.sender_name ++ " | " ++ escapeHtml message.created_at ++
    "</span>\n                </div>\n            "

/-- Markup written to the message container by `renderMessages`. -/
def renderMessagesHtml (currentUserId : Int) (messages : List ChatMessage) : String :=
  String.join (messages.map (renderMessageItem currentUserId))

/-- Specification-side variant of `renderUserItem`: the same markup template
with every server-supplied field passed through `escapeHtml`, following the
spec sentence that all rendering escapes untrusted content before insertion. -/
def renderUserItemSpec (selectedUserId : Option Int) (user : ChatUser) : String :=
  let active := if some user.id == selectedUserId then "active" else ""
  "\n                <div class=\"chat-user-item " ++ active ++
    "\" data-user-id=\"" ++ escapeHtml (toString user.id) ++
    "\">\n                    <strong>" ++ escapeHtml user.full_name ++
    "</strong>\n                    <div class=\"small text-muted\">" ++
    escapeHtml user.email ++ " | " ++ escapeHtml user.role ++
    "</div>\n                </div>\n            "

/-- Specification-side variant of `renderUsersHtml`. -/
def renderUsersHtmlSpec (selectedUserId : Option Int) (users : List ChatUser) : String :=
  String.join (users.map (renderUserItemSpec selectedUserId))

/-- Specification-side variant of `renderMessageItem`: every server-supplied
field of the bubble template passed through `escapeHtml`. -/
def renderMessageItemSpec (currentUserId : Int) (message : ChatMessage) : String :=
  let bubbleType := if message.sender_id == currentUserId then "self" else "other"
  "\n                <div class=\"chat-bubble " ++ bubbleType ++
    "\">\n                    <div>" ++ escapeHtml message.content ++
    "</div>\n                    <span class=\"chat-meta\">" ++
    escapeHtml message.sender_name ++ " | " ++ escapeHtml message.created_at ++
    "</span>\n                </div>\n            "

/-- Specification-side variant of `renderMessagesHtml`. -/
def renderMessagesHtmlSpec (currentUserId : Int) (messages : List ChatMessage) : String :=
  String.join (messages.map (renderMessageItemSpec currentUserId))

/-! ### admin-chat.js — header state text -/

/-- Character list of the marker `| WS: ` searched by the regular expression
in `setSocketState`. -/
def wsSuffixMarker : List Char := ['|', ' ', 'W', 'S', ':', ' ']

/-- Replacement of the first match of the regular expression `\| WS: .*$`
(the marker followed by a newline-free tail) by the marker and the new state
text; `none` when the expression does not match, in which case JavaScript
`String.prototype.replace` returns the string unchanged. -/
def replaceWsSuffixList (stateText : String) : List Char → Option (List Char)
  | [] => none
  | c :: cs =>
    if wsSuffixMarker.isPrefixOf (c :: cs) && !((c :: cs).drop 6).contains '\n' then
      some (wsSuffixMarker ++ stateText.toList)
    else
      match replaceWsSuffixList stateText cs with
      | some r => some (c :: r)
      | none => none

/-- The `setSocketState` function of admin-chat.js as a pure function from the
current header text to the new header text. -/
def setSocketStateHeader (selectedUserId : Option Int) (current : String)
    (stateText : String) : String :=
  if !jsTruthyId selectedUserId then
    "WebSocket: " ++ stateText ++ ". Selectionnez un utilisateur pour commencer."
  else if !(current.toList.contains '|') then
    current ++ " | WS: " ++ stateText
  else
    match replaceWsSuffixList stateText current.toList with
    | some r => String.mk r
    | none => current

/-! ### admin-chat.js — REST operations -/

/-- The `loadUsers` operation: the GET request is always emitted; a
non-success response (`none`) leaves the state unchanged, a success response
replaces the user list and re-renders the roster. -/
def loadUsers (cfg : ChatConfig) (st : ClientState) (response : Option UsersResponse) :
    ClientState × List NetEvent :=
  let events := [NetEvent.getUsers (withApi cfg.apiBase "chat_users") true]
  match response with
  | none => (st, events)
  | some data =>
      let users := data.users.getD []
      ({ st with users := users,
                 usersHtml := renderUsersHtml st.selectedUserId users }, events)

/-- The `loadMessages` operation: no request without a truthy selected user;
otherwise the GET request is always emitted; a non-success response leaves the
state unchanged, a success response rewrites the header (counterpart name plus
connection-state suffix), re-renders the messages and enables the controls. -/
def loadMessages (cfg : ChatConfig) (st : ClientState) (socketOpen : Bool)
    (response : Option FetchResponse) : ClientState × List NetEvent :=
  if !jsTruthyId st.selectedUserId then (st, [])
  else
    match st.selectedUserId with
    | none => (st, [])
    | some sid =>
      let events := [NetEvent.getMessages
        (withApi cfg.apiBase ("chat_fetch?target_id=" ++ toString sid)) true]
      match response with
      | none => (st, events)
      | some data =>
        let headerName := "Conversation avec " ++ data.target_user.full_name
        let headerFull := setSocketStateHeader st.selectedUserId headerName
          (if socketOpen then "connecte" else "deconnecte")
        ({ st with headerText := headerFull,
                   messagesHtml := renderMessagesHtml cfg.currentUserId (data.messages.getD []),
                   inputDisabled := false,
                   sendButtonDisabled := false }, events)

/-- The `notifyWsNewMessage` function: emits one push-channel frame only when
the socket is currently open. -/
def notifyWsNewMessage (cfg : ChatConfig) (socketOpen : Bool)
    (targetId : Int) (conversationId : Int) (messageId : Int) : List NetEvent :=
  if !socketOpen then []
  else [NetEvent.wsSend "chat:new_message" targetId cfg.currentUserId
    conversationId messageId]

/-- The `sendMessage` operation: a no-op without a truthy selected user or
with a message that trims to the empty string; otherwise one POST, and on a
success response a full `loadMessages` reload followed by the push-channel
notification built from the response body. -/
def sendMessage (cfg : ChatConfig) (st : ClientState) (message : String)
    (sendResponse : Option SendResponse) (socketOpen : Bool)
    (fetchResponse : Option FetchResponse) : ClientState × List NetEvent :=
  if !jsTruthyId st.selectedUserId || jsTrim message == "" then (st, [])
  else
    match st.selectedUserId with
    | none => (st, [])
    | some sid =>
      let postEvent := NetEvent.postSend (withApi cfg.apiBase "chat_send") sid
        (jsTrim message) cfg.csrfToken true
      match sendResponse with
      | none => (st, [postEvent])
      | some data =>
        let reload := loadMessages cfg st socketOpen fetchResponse
        let notifyEvents := notifyWsNewMessage cfg socketOpen data.target_id
          data.conversation_id data.message_id
        (reload.1, postEvent :: reload.2 ++ notifyEvents)

/-! ### admin-chat.js — push-channel message handler -/

/-- The `handleSocketMessage` function, reduced to which reloads it performs:
first component is whether the roster is reloaded, second whether the message
list is reloaded. A payload of `none` models a JSON parse failure or a falsy
parse result, both swallowed by the try-catch. -/
def handleSocketMessage (currentUserId : Int) (selectedUserId : Option Int)
    (payload : Option WsPayload) : Bool × Bool :=
  match payload with
  | none => (false, false)
  | some p =>
    if p.type != "chat:new_message" then (false, false)
    else
      let senderId := p.sender_user_id.getD 0
      let targetId := p.target_user_id.getD 0
      if senderId == currentUserId || targetId == currentUserId then
        (true, jsTruthyId selectedUserId &&
          (selectedUserId == some senderId || selectedUserId == some targetId))
      else (false, false)

/-! ### admin-chat.js — reconnect timer state machine -/

/-- A timer scheduled through `setTimeout`, with its handle and its delay in
milliseconds. -/
structure PendingTimer where
  id : Nat
  delay : Nat
deriving DecidableEq

/-- State of the reconnect loop: the next fresh timer handle, the value of the
`reconnectTimer` variable, the timers pending in the environment, and how many
reconnection attempts (calls of `connectWebSocket` from a timer) have run. -/
structure WsReconnectState where
  nextTimerId : Nat
  reconnectTimer : Option Nat
  pending : List PendingTimer
  connectAttempts : Nat
deriving DecidableEq

/-- Initial reconnect state: `reconnectTimer = null`, nothing pending. -/
def initialWsState : WsReconnectState :=
  { nextTimerId := 0, reconnectTimer := none, pending := [], connectAttempts := 0 }

/-- Semantics of `clearTimeout`: the timer with the given handle is removed
from the pending set; clearing an absent handle is a no-op. -/
def clearTimeoutPending (pending : List PendingTimer) (t : Nat) : List PendingTimer :=
  pending.filter (fun p => p.id != t)

/-- The close handler of `connectWebSocket`: clear the previous reconnect
timer when the variable holds one, then schedule a fresh 2000 ms timer and
store its handle. -/
def onSocketClose (s : WsReconnectState) : WsReconnectState :=
  let cleared := match s.reconnectTimer with
    | some t => clearTimeoutPending s.pending t
    | none => s.pending
  { nextTimerId := s.nextTimerId + 1,
    reconnectTimer := some s.nextTimerId,
    pending := cleared ++ [{ id := s.nextTimerId, delay := 2000 }],
    connectAttempts := s.connectAttempts }

/-- Environment step firing a pending timer: the timer leaves the pending set
and its callback runs `connectWebSocket` once. -/
def fireTimer (s : WsReconnectState) (t : Nat) : WsReconnectState :=
  if s.pending.any (fun p => p.id == t) then
    { s with pending := s.pending.filter (fun p => p.id != t),
             connectAttempts := s.connectAttempts + 1 }
  else s

/-- Events driving the reconnect loop. -/
inductive WsEvent where
  | close
  | fire (t : Nat)
deriving DecidableEq

/-- One step of the reconnect loop. -/
def wsStep (s : WsReconnectState) (e : WsEvent) : WsReconnectState :=
  match e with
  | WsEvent.close => onSocketClose s
  | WsEvent.fire t => fireTimer s t

/-- Run of the reconnect loop from the initial state. -/
def runWsEvents (events : List WsEvent) : WsReconnectState :=
  events.foldl wsStep initialWsState

/-- Reconnect-loop invariant: either no timer is pending, or exactly one is,
its handle is the one stored in the `reconnectTimer` variable and its delay is
the fixed 2000 ms. -/
def wsInvariant (s : WsReconnectState) : Prop :=
  s.pending = [] ∨
    ∃ p : PendingTimer, s.pending = [p] ∧ s.reconnectTimer = some p.id ∧ p.delay = 2000

/-! ### Supporting lemmas -/

theorem string_toList_append (s t : String) : (s ++ t).toList = s.toList ++ t.toList := by
  cases s; cases t; rfl

theorem stripTrailingSlashes_append_slash (b : String) :
    stripTrailingSlashes (b ++ "/") = stripTrailingSlashes b := by
  unfold stripTrailingSlashes
  rw [string_toList_append]
  simp [show ("/" : String).toList = ['/'] from rfl]

theorem stripLeadingSlashes_slash_append (p : String) :
    stripLeadingSlashes ("/" ++ p) = stripLeadingSlashes p := by
  unfold stripLeadingSlashes
  rw [string_toList_append]
  simp [show ("/" : String).toList = ['/'] from rfl]

theorem mem_classListAdd (cs : List String) (c : String) : c ∈ classListAdd cs c := by
  unfold classListAdd
  split
  · assumption
  · simp

theorem classListAdd_idem (cs : List String) (c : String) :
    classListAdd (classListAdd cs c) c = classListAdd cs c := by
  unfold classListAdd
  split
  · simp [classListAdd, *]
  · simp [classListAdd]

theorem mem_classListAdd_other {x c : String} (cs : List String) (h : x ≠ c) :
    x ∈ classListAdd cs c ↔ x ∈ cs := by
  unfold classListAdd
  split
  · rfl
  · simp [h]

theorem nodup_classListAdd {cs : List String} (c : String) (h : cs.Nodup) :
    (classListAdd cs c).Nodup := by
  unfold classListAdd
  split
  · exact h
  · simp [List.nodup_append, h]
    assumption

theorem not_mem_classListRemove (cs : List String) (c : String) :
    c ∉ classListRemove cs c := by
  unfold classListRemove
  simp [List.mem_filter]

theorem classListRemove_idem (cs : List String) (c : String) :
    classListRemove (classListRemove cs c) c = classListRemove cs c := by
  unfold classListRemove
  rw [List.filter_filter]
  apply List.filter_congr
  intro x _
  simp [Bool.and_self]

theorem mem_classListRemove_other {x c : String} (cs : List String) (h : x ≠ c) :
    x ∈ classListRemove cs c ↔ x ∈ cs := by
  unfold classListRemove
  simp [List.mem_filter, h]

theorem nodup_classListRemove {cs : List String} (c : String) (h : cs.Nodup) :
    (classListRemove cs c).Nodup :=
  h.filter _

/-! ### Claim theorems -/

/-- C10: the `withApi` URL builder joins base and path with exactly one slash,
stripping all trailing slashes from the base and all leading slashes from the
path, so the request URL is independent of boundary slashes; in particular the
bases `x/`, `x`, `x//` with paths `/p`, `p`, `//p` all give `x/p`. -/
theorem withApi_boundary_slash_independent :
    (∀ apiBase path : String, withApi (apiBase ++ "/") path = withApi apiBase path) ∧
    (∀ apiBase path : String, withApi apiBase ("/" ++ path) = withApi apiBase path) ∧
    withApi "x/" "/p" = "x/p" ∧ withApi "x" "p" = "x/p" ∧ withApi "x//" "//p" = "x/p" := by
  refine ⟨?_, ?_, by decide, by decide, by decide⟩
  · intro b p
    unfold withApi
    rw [stripTrailingSlashes_append_slash]
  · intro b p
    unfold withApi
    rw [stripLeadingSlashes_slash_append]

/-- C9: after the scroll handler runs, the `is-scrolled` marker is on the
navbar class list iff the scroll offset exceeds 32; the handler is idempotent
at a fixed offset, changes membership of no other class, and preserves
duplicate-freedom of the class list. -/
theorem scrollHandler_toggle :
    ∀ (scrollY : Int) (classes : List String),
      (("is-scrolled" ∈ scrollHandler scrollY classes) ↔ scrollY > 32) ∧
      scrollHandler scrollY (scrollHandler scrollY classes) = scrollHandler scrollY classes ∧
      (∀ c, c ≠ "is-scrolled" → ((c ∈ scrollHandler scrollY classes) ↔ c ∈ classes)) ∧
      (classes.Nodup → (scrollHandler scrollY classes).Nodup) := by
  intro y cs
  by_cases hy : y > 32
  · simp only [scrollHandler, if_pos hy]
    exact ⟨⟨fun _ => hy, fun _ => mem_classListAdd cs _⟩,
      classListAdd_idem cs _,
      fun c hc => mem_classListAdd_other cs hc,
      fun h => nodup_classListAdd _ h⟩
  · simp only [scrollHandler, if_neg hy]
    refine ⟨⟨fun hmem => absurd hmem (not_mem_classListRemove cs _), fun h => absurd h hy⟩,
      classListRemove_idem cs _,
      fun c hc => mem_classListRemove_other cs hc,
      fun h => nodup_classListRemove _ h⟩

/-- Witness for C9 at concrete inputs: offset 33 leaves a foreign class
untouched and offset 31 keeps the list duplicate-free. -/
theorem scrollHandler_toggle_witness :
    (("navbar" ∈ scrollHandler 33 ["navbar"]) ↔ "navbar" ∈ ["navbar"]) ∧
    (scrollHandler 31 ["navbar", "is-scrolled"]).Nodup :=
  ⟨(scrollHandler_toggle 33 ["navbar"]).2.2.1 "navbar" (by decide),
   (scrollHandler_toggle 31 ["navbar", "is-scrolled"]).2.2.2 (by decide)⟩

/-- C5: a non-success response to the roster GET or to the messages GET leaves
the whole client state (user list, selection, rendered lists, header, control
state) exactly as it was. -/
theorem load_failure_state_unchanged :
    ∀ (cfg : ChatConfig) (st : ClientState) (socketOpen : Bool),
      (loadUsers cfg st none).1 = st ∧ (loadMessages cfg st socketOpen none).1 = st := by
  intro cfg st socketOpen
  constructor
  · rfl
  · unfold loadMessages
    split
    · rfl
    · split
      · rfl
      · rfl

/-- C4: with no truthy selected counterpart or a message that trims to the
empty string, `sendMessage` emits no network event and returns the state
unchanged. -/
theorem sendMessage_noop (cfg : ChatConfig) (st : ClientState) (message : String)
    (sendResponse : Option SendResponse) (socketOpen : Bool)
    (fetchResponse : Option FetchResponse)
    (h : jsTruthyId st.selectedUserId = false ∨ jsTrim message = "") :
    sendMessage cfg st message sendResponse socketOpen fetchResponse = (st, []) := by
  unfold sendMessage
  rcases h with h | h
  · simp [h]
  · simp [h]

/-- Witness for C4: sending a whitespace-only message with a selected
counterpart performs no request and leaves the state unchanged. -/
theorem sendMessage_noop_witness :
    sendMessage { currentUserId := 7, csrfToken := "tok", apiBase := "/backoffice/api" }
      { users := [], selectedUserId := some 3, usersHtml := "", messagesHtml := "",
        headerText := "", inputDisabled := true, sendButtonDisabled := true }
      "   " none false none =
      ({ users := [], selectedUserId := some 3, usersHtml := "", messagesHtml := "",
         headerText := "", inputDisabled := true, sendButtonDisabled := true }, []) :=
  sendMessage_noop _ _ _ _ _ _ (Or.inr (by decide))

/-- C3: a successful send with a truthy selected counterpart and a non-blank
message emits, in order, exactly one POST carrying the trimmed message, the
counterpart id, the CSRF token and same-origin credentials, then exactly one
GET of the message list, then one push-channel frame with target id, self as
sender id, conversation id and message id when the socket is open and nothing
when it is not. -/
theorem sendMessage_success_trace (cfg : ChatConfig) (st : ClientState)
    (message : String) (sid : Int) (data : SendResponse) (socketOpen : Bool)
    (fetchResponse : Option FetchResponse)
    (hsel : st.selectedUserId = some sid) (hsid : sid ≠ 0)
    (hmsg : jsTrim message ≠ "") :
    (sendMessage cfg st message (some data) socketOpen fetchResponse).2 =
      NetEvent.postSend (withApi cfg.apiBase "chat_send") sid (jsTrim message)
          cfg.csrfToken true ::
        NetEvent.getMessages
          (withApi cfg.apiBase ("chat_fetch?target_id=" ++ toString sid)) true ::
        (if socketOpen then
          [NetEvent.wsSend "chat:new_message" data.target_id cfg.currentUserId
            data.conversation_id data.message_id]
        else []) := by
  unfold sendMessage loadMessages notifyWsNewMessage
  rw [hsel]
  simp [jsTruthyId, hsid, hmsg]
  cases fetchResponse <;> cases socketOpen <;> simp

/-- Witness for C3 applying the trace theorem at concrete inputs with the
socket open. -/
theorem sendMessage_success_trace_witness :
    (sendMessage { currentUserId := 7, csrfToken := "tok", apiBase := "/backoffice/api" }
      { users := [], selectedUserId := some 3, usersHtml := "", messagesHtml := "",
        headerText := "", inputDisabled := false, sendButtonDisabled := false }
      " salut " (some { target_id := 3, conversation_id := 9, message_id := 42 })
      true none).2 =
      NetEvent.postSend (withApi "/backoffice/api" "chat_send") 3 (jsTrim " salut ")
          "tok" true ::
        NetEvent.getMessages
          (withApi "/backoffice/api" ("chat_fetch?target_id=" ++ toString (3 : Int))) true ::
        (if true then
          [NetEvent.wsSend "chat:new_message" 3 7 9 42]
        else []) :=
  sendMessage_success_trace _ _ " salut " 3
    { target_id := 3, conversation_id := 9, message_id := 42 } true none
    rfl (by decide) (by decide)

/-- C2: the push-channel message handler reloads nothing on a parse failure,
nothing when the payload is not tagged `chat:new_message`, nothing when the
payload concerns neither sender nor target equal to the current user; in the
remaining case it reloads the roster, and reloads the message list iff a
counterpart is selected whose id equals the payload sender id or target id. -/
theorem handleSocketMessage_filtering (currentUserId : Int)
    (selectedUserId : Option Int) (payload : Option WsPayload)
    (hsel : ∀ s : Int, selectedUserId = some s → s ≠ 0) :
    (payload = none →
      handleSocketMessage currentUserId selectedUserId payload = (false, false)) ∧
    (∀ p : WsPayload, payload = some p → p.type ≠ "chat:new_message" →
      handleSocketMessage currentUserId selectedUserId payload = (false, false)) ∧
    (∀ p : WsPayload, payload = some p → p.sender_user_id.getD 0 ≠ currentUserId →
      p.target_user_id.getD 0 ≠ currentUserId →
      handleSocketMessage currentUserId selectedUserId payload = (false, false)) ∧
    (∀ p : WsPayload, payload = some p → p.type = "chat:new_message" →
      (p.sender_user_id.getD 0 = currentUserId ∨ p.target_user_id.getD 0 = currentUserId) →
      (handleSocketMessage currentUserId selectedUserId payload).1 = true ∧
      ((handleSocketMessage currentUserId selectedUserId payload).2 = true ↔
        (∃ s : Int, selectedUserId = some s ∧
          (s = p.sender_user_id.getD 0 ∨ s = p.target_user_id.getD 0)))) := by
  refine ⟨?_, ?_, ?_, ?_⟩
  · rintro rfl; rfl
  · rintro p rfl hty
    simp [handleSocketMessage, hty]
  · rintro p rfl hs ht
    have hc : (p.sender_user_id.getD 0 == currentUserId ||
        p.target_user_id.getD 0 == currentUserId) = false := by simp [hs, ht]
    by_cases hty : p.type = "chat:new_message"
    · simp [handleSocketMessage, hty, hc]
    · simp [handleSocketMessage, hty]
  · rintro p rfl hty hcu
    have hc : (p.sender_user_id.getD 0 == currentUserId ||
        p.target_user_id.getD 0 == currentUserId) = true := by
      rcases hcu with h | h <;> simp [h]
    cases hselv : selectedUserId with
    | none =>
      simp [handleSocketMessage, hty, hc, jsTruthyId]
    | some s =>
      have hs0 : s ≠ 0 := hsel s hselv
      simp [handleSocketMessage, hty, hc, jsTruthyId, hs0]

/-- Witness for C2: a payload tagged `chat:new_message` from user 5 to the
current user 7 with user 5 selected reloads both roster and messages. -/
theorem handleSocketMessage_filtering_witness :
    (handleSocketMessage 7 (some 5)
      (some { type := "chat:new_message", sender_user_id := some 5,
              target_user_id := some 7 })).1 = true ∧
    ((handleSocketMessage 7 (some 5)
      (some { type := "chat:new_message", sender_user_id := some 5,
              target_user_id := some 7 })).2 = true ↔
      (∃ s : Int, (some 5 : Option Int) = some s ∧
        (s = (some (5 : Int)).getD 0 ∨ s = (some (7 : Int)).getD 0))) :=
  (handleSocketMessage_filtering 7 (some 5)
      (some { type := "chat:new_message", sender_user_id := some 5,
              target_user_id := some 7 })
      (fun s hs => by simp at hs; omega)).2.2.2
    _ rfl rfl (Or.inr (by decide))

theorem wsInvariant_initial : wsInvariant initialWsState := Or.inl rfl

theorem wsInvariant_step (s : WsReconnectState) (e : WsEvent) (h : wsInvariant s) :
    wsInvariant (wsStep s e) := by
  cases e with
  | close =>
    right
    refine ⟨{ id := s.nextTimerId, delay := 2000 }, ?_, rfl, rfl⟩
    rcases h with h | ⟨p, hp, hr, hd⟩
    · cases hrt : s.reconnectTimer <;>
        simp [wsStep, onSocketClose, hrt, clearTimeoutPending, h]
    · simp [wsStep, onSocketClose, hr, hp, clearTimeoutPending]
  | fire t =>
    rcases h with h | ⟨p, hp, hr, hd⟩
    · have : wsStep s (WsEvent.fire t) = s := by
        simp [wsStep, fireTimer, h]
      rw [this]
      exact Or.inl h
    · by_cases ht : p.id = t
      · left
        simp [wsStep, fireTimer, hp, ht]
      · have hs : wsStep s (WsEvent.fire t) = s := by
          simp [wsStep, fireTimer, hp, ht]
        rw [hs]
        exact Or.inr ⟨p, hp, hr, hd⟩

theorem wsInvariant_run (events : List WsEvent) : wsInvariant (runWsEvents events) := by
  unfold runWsEvents
  have hgen : ∀ (l : List WsEvent) (s : WsReconnectState),
      wsInvariant s → wsInvariant (l.foldl wsStep s) := by
    intro l
    induction l with
    | nil => intro s hs; exact hs
    | cons e l ih => intro s hs; exact ih _ (wsInvariant_step s e hs)
  exact hgen events initialWsState wsInvariant_initial

/-- C1: along every sequence of close and timer-fire events, at most one
reconnect timer is ever pending and every pending timer carries the fixed
2000 ms delay; a single close schedules exactly one timer and runs no
reconnection yet, and firing that timer yields exactly one reconnection
attempt and leaves nothing pending. -/
theorem reconnect_single_timer :
    (∀ events : List WsEvent,
      (runWsEvents events).pending.length ≤ 1 ∧
      (∀ p ∈ (runWsEvents events).pending, p.delay = 2000)) ∧
    (runWsEvents [WsEvent.close]).pending = [{ id := 0, delay := 2000 }] ∧
    (runWsEvents [WsEvent.close]).connectAttempts = 0 ∧
    (runWsEvents [WsEvent.close, WsEvent.fire 0]).connectAttempts = 1 ∧
    (runWsEvents [WsEvent.close, WsEvent.fire 0]).pending = [] := by
  refine ⟨?_, by decide, by decide, by decide, by decide⟩
  intro events
  rcases wsInvariant_run events with h | ⟨p, hp, hr, hd⟩
  · simp [h]
  · simp [hp, hd]

/-- Witness for C1: the timer pending after a single close event carries the
2000 ms delay. -/
theorem reconnect_single_timer_witness :
    ({ id := 0, delay := 2000 } : PendingTimer).delay = 2000 :=
  (reconnect_single_timer.1 [WsEvent.close]).2 { id := 0, delay := 2000 } (by decide)

theorem passwordStrength_eq_count (v : String) :
    passwordStrength v = satisfiedCriteria v := by
  unfold passwordStrength satisfiedCriteria passwordCriteria
  cases h1 : decide (v.length ≥ 8) <;>
    cases h2 : v.toList.any Char.isUpper <;>
      cases h3 : v.toList.any Char.isLower <;>
        cases h4 : v.toList.any Char.isDigit <;>
          cases h5 : v.toList.any (fun c => !c.isAlphanum) <;>
            simp [h1, h2, h3, h4, h5]

/-- C7: the password score counts the satisfied criteria (so it lies in 0..5
and is monotone in the number of satisfied criteria), and the threshold
mapping sends scores of at most 2 to the weak label, 3 to medium, 4 to good
and 5 to strong, so the displayed label is always one of the four localized
strength labels, which are pairwise distinct in every shipped locale. -/
theorem passwordStrength_score_label :
    (∀ v : String, passwordStrength v = satisfiedCriteria v) ∧
    (∀ v : String, passwordStrength v ≤ 5) ∧
    (∀ v w : String, satisfiedCriteria v ≤ satisfiedCriteria w →
      passwordStrength v ≤ passwordStrength w) ∧
    (∀ (d : LocaleLabels) (v : String),
      strengthText d (passwordStrength v) ∈ [d.weak, d.medium, d.good, d.strong] ∧
      (passwordStrength v ≤ 2 → strengthText d (passwordStrength v) = d.weak) ∧
      (passwordStrength v = 3 → strengthText d (passwordStrength v) = d.medium) ∧
      (passwordStrength v = 4 → strengthText d (passwordStrength v) = d.good) ∧
      (passwordStrength v = 5 → strengthText d (passwordStrength v) = d.strong)) ∧
    [labelsFr.weak, labelsFr.medium, labelsFr.good, labelsFr.strong].Nodup ∧
    [labelsEn.weak, labelsEn.medium, labelsEn.good, labelsEn.strong].Nodup ∧
    [labelsDe.weak, labelsDe.medium, labelsDe.good, labelsDe.strong].Nodup := by
  have hle : ∀ v : String, passwordStrength v ≤ 5 := by
    intro v
    rw [passwordStrength_eq_count]
    calc satisfiedCriteria v ≤ (passwordCriteria v).length := List.count_le_length _ _
      _ = 5 := rfl
  refine ⟨passwordStrength_eq_count, hle, ?_, ?_, by decide, by decide, by decide⟩
  · intro v w h
    rw [passwordStrength_eq_count, passwordStrength_eq_count]
    exact h
  · intro d v
    refine ⟨?_, ?_, ?_, ?_, ?_⟩
    · unfold strengthText
      split
      · simp
      · split
        · simp
        · split <;> simp
    · intro h
      have h5 := hle v
      set n := passwordStrength v with hn
      interval_cases n <;> rfl
    · intro h
      rw [h]
      rfl
    · intro h
      rw [h]
      rfl
    · intro h
      rw [h]
      rfl

/-- Witness for C7: monotonicity applied between a trivial and a full-score
password, and the weak label mapping at a concrete weak password. -/
theorem passwordStrength_score_label_witness :
    passwordStrength "abc" ≤ passwordStrength "Aa1!aaaa" ∧
    strengthText labelsFr (passwordStrength "abc") = labelsFr.weak :=
  ⟨passwordStrength_score_label.2.2.1 "abc" "Aa1!aaaa" (by decide),
   (passwordStrength_score_label.2.2.2.1 labelsFr "abc").2.1 (by decide)⟩

theorem take_one_of_take_two {l : List Char} {a b : Char} (h : l.take 2 = [a, b]) :
    l.take 1 = [a] := by
  rcases l with _ | ⟨x, l⟩
  · simp at h
  · rcases l with _ | ⟨y, l⟩
    · simp at h
    · simp at h ⊢
      exact h.1

theorem isPrefixOf_exists_append {l1 l2 : List Char} (h : l1.isPrefixOf l2 = true) :
    ∃ t, l2 = l1 ++ t := by
  induction l1 generalizing l2 with
  | nil => exact ⟨l2, rfl⟩
  | cons a as ih =>
    rcases l2 with _ | ⟨b, bs⟩
    · simp [List.isPrefixOf] at h
    · simp only [List.isPrefixOf, Bool.and_eq_true, beq_iff_eq] at h
      obtain ⟨t, ht⟩ := ih h.2
      exact ⟨t, by rw [h.1, ht]; rfl⟩

theorem matchCm_take (v : String) (h : matchCm v = true) : v.toList.take 2 = ['+', '2'] := by
  unfold matchCm at h
  obtain ⟨t, ht⟩ := isPrefixOf_exists_append h
  rw [ht]
  rfl

theorem matchFr_take (v : String) (h : matchFr v = true) : v.toList.take 2 = ['+', '3'] := by
  unfold matchFr at h
  obtain ⟨t, ht⟩ := isPrefixOf_exists_append h
  rw [ht]
  rfl

theorem matchDe_take (v : String) (h : matchDe v = true) : v.toList.take 2 = ['+', '4'] := by
  unfold matchDe at h
  obtain ⟨t, ht⟩ := isPrefixOf_exists_append h
  rw [ht]
  rfl

theorem matchUs_take (v : String) (h : matchUs v = true) : v.toList.take 2 = ['+', '1'] := by
  unfold matchUs at h
  obtain ⟨t, ht⟩ := isPrefixOf_exists_append h
  rw [ht]
  rfl

theorem matchLocal_take (v : String) (h : matchLocal v = true) : v.toList.take 1 = ['0'] := by
  unfold matchLocal at h
  rcases hv : v.toList with _ | ⟨c, rest⟩
  · rw [hv] at h
    simp at h
  · rw [hv] at h
    simp at h
    simp [h.1.1]

theorem count_true_le_one_of_pairwise (b1 b2 b3 b4 b5 : Bool)
    (h12 : b1 = true → b2 = false) (h13 : b1 = true → b3 = false)
    (h14 : b1 = true → b4 = false) (h15 : b1 = true → b5 = false)
    (h23 : b2 = true → b3 = false) (h24 : b2 = true → b4 = false)
    (h25 : b2 = true → b5 = false) (h34 : b3 = true → b4 = false)
    (h35 : b3 = true → b5 = false) (h45 : b4 = true → b5 = false) :
    ([b1, b2, b3, b4, b5].count true) ≤ 1 := by
  revert h12 h13 h14 h15 h23 h24 h25 h34 h35 h45
  cases b1 <;> cases b2 <;> cases b3 <;> cases b4 <;> cases b5 <;> decide

theorem take_two_excl {v : String} {a b a2 b2 : Char}
    (h1 : v.toList.take 2 = [a, b]) (hne : ¬ ([a, b] = [a2, b2])) :
    ¬ (v.toList.take 2 = [a2, b2]) := by
  rw [h1]
  exact hne

theorem phoneRules_mutually_exclusive (v : String) :
    (phoneRuleMatches v).count true ≤ 1 := by
  unfold phoneRuleMatches
  apply count_true_le_one_of_pairwise
  all_goals intro h
  case h12 =>
    cases hx : matchFr v
    · rfl
    · have e := matchFr_take v hx
      rw [matchCm_take v h] at e
      exact absurd e (by decide)
  case h13 =>
    cases hx : matchDe v
    · rfl
    · have e := matchDe_take v hx
      rw [matchCm_take v h] at e
      exact absurd e (by decide)
  case h14 =>
    cases hx : matchUs v
    · rfl
    · have e := matchUs_take v hx
      rw [matchCm_take v h] at e
      exact absurd e (by decide)
  case h15 =>
    cases hx : matchLocal v
    · rfl
    · have e := matchLocal_take v hx
      rw [take_one_of_take_two (matchCm_take v h)] at e
      exact absurd e (by decide)
  case h23 =>
    cases hx : matchDe v
    · rfl
    · have e := matchDe_take v hx
      rw [matchFr_take v h] at e
      exact absurd e (by decide)
  case h24 =>
    cases hx : matchUs v
    · rfl
    · have e := matchUs_take v hx
      rw [matchFr_take v h] at e
      exact absurd e (by decide)
  case h25 =>
    cases hx : matchLocal v
    · rfl
    · have e := matchLocal_take v hx
      rw [take_one_of_take_two (matchFr_take v h)] at e
      exact absurd e (by decide)
  case h34 =>
    cases hx : matchUs v
    · rfl
    · have e := matchUs_take v hx
      rw [matchDe_take v h] at e
      exact absurd e (by decide)
  case h35 =>
    cases hx : matchLocal v
    · rfl
    · have e := matchLocal_take v hx
      rw [take_one_of_take_two (matchDe_take v h)] at e
      exact absurd e (by decide)
  case h45 =>
    cases hx : matchLocal v
    · rfl
    · have e := matchLocal_take v hx
      rw [take_one_of_take_two (matchUs_take v h)] at e
      exact absurd e (by decide)

theorem stripJsWhitespace_idem (raw : String) :
    stripJsWhitespace (stripJsWhitespace raw) = stripJsWhitespace raw := by
  unfold stripJsWhitespace
  have : (String.mk (raw.toList.filter (fun c => !isJsSpace c))).toList =
      raw.toList.filter (fun c => !isJsSpace c) := rfl
  rw [this, List.filter_filter]
  congr 1
  apply List.filter_congr
  intro x _
  simp

/-- C8: the phone detector first strips all whitespace, the five positive
rules are mutually exclusive (at most one matches any string), each matching
rule determines the returned label in priority order, and the four quoted
examples classify to the Cameroon, France, local and unknown labels. -/
theorem detectPhone_classification :
    (∀ v : String, (phoneRuleMatches v).count true ≤ 1) ∧
    (∀ (d : LocaleLabels) (raw : String),
      detectPhone d raw = detectPhone d (stripJsWhitespace raw)) ∧
    (∀ (d : LocaleLabels) (raw : String),
      (matchCm (stripJsWhitespace raw) = true → detectPhone d raw = d.cm) ∧
      (matchFr (stripJsWhitespace raw) = true → detectPhone d raw = d.fr) ∧
      (matchDe (stripJsWhitespace raw) = true → detectPhone d raw = d.de) ∧
      (matchUs (stripJsWhitespace raw) = true → detectPhone d raw = d.us) ∧
      (matchLocal (stripJsWhitespace raw) = true → detectPhone d raw = d.localLabel) ∧
      (matchCm (stripJsWhitespace raw) = false → matchFr (stripJsWhitespace raw) = false →
        matchDe (stripJsWhitespace raw) = false → matchUs (stripJsWhitespace raw) = false →
        matchLocal (stripJsWhitespace raw) = false → detectPhone d raw = d.unknown)) ∧
    detectPhone labelsFr "+237612345678" = labelsFr.cm ∧
    detectPhone labelsFr "+33612345678" = labelsFr.fr ∧
    detectPhone labelsFr "0612345678" = labelsFr.localLabel ∧
    detectPhone labelsFr "999" = labelsFr.unknown := by
  refine ⟨phoneRules_mutually_exclusive, ?_, ?_, by decide, by decide, by decide, by decide⟩
  · intro d raw
    unfold detectPhone
    rw [stripJsWhitespace_idem]
  · intro d raw
    set v := stripJsWhitespace raw with hv
    have excl12 : matchCm v = true → matchFr v = false := by
      intro h
      cases hx : matchFr v
      · rfl
      · have e := matchFr_take v hx
        rw [matchCm_take v h] at e
        exact absurd e (by decide)
    refine ⟨?_, ?_, ?_, ?_, ?_, ?_⟩
    · intro h
      simp [detectPhone, ← hv, h]
    · intro h
      have h1 : matchCm v = false := by
        cases hx : matchCm v
        · rfl
        · have e := matchCm_take v hx
          rw [matchFr_take v h] at e
          exact absurd e (by decide)
      simp [detectPhone, ← hv, h, h1]
    · intro h
      have h1 : matchCm v = false := by
        cases hx : matchCm v
        · rfl
        · have e := matchCm_take v hx
          rw [matchDe_take v h] at e
          exact absurd e (by decide)
      have h2 : matchFr v = false := by
        cases hx : matchFr v
        · rfl
        · have e := matchFr_take v hx
          rw [matchDe_take v h] at e
          exact absurd e (by decide)
      simp [detectPhone, ← hv, h, h1, h2]
    · intro h
      have h1 : matchCm v = false := by
        cases hx : matchCm v
        · rfl
        · have e := matchCm_take v hx
          rw [matchUs_take v h] at e
          exact absurd e (by decide)
      have h2 : matchFr v = false := by
        cases hx : matchFr v
        · rfl
        · have e := matchFr_take v hx
          rw [matchUs_take v h] at e
          exact absurd e (by decide)
      have h3 : matchDe v = false := by
        cases hx : matchDe v
        · rfl
        · have e := matchDe_take v hx
          rw [matchUs_take v h] at e
          exact absurd e (by decide)
      simp [detectPhone, ← hv, h, h1, h2, h3]
    · intro h
      have hl := matchLocal_take v h
      have h1 : matchCm v = false := by
        cases hx : matchCm v
        · rfl
        · have e := take_one_of_take_two (matchCm_take v hx)
          rw [hl] at e
          exact absurd e (by decide)
      have h2 : matchFr v = false := by
        cases hx : matchFr v
        · rfl
        · have e := take_one_of_take_two (matchFr_take v hx)
          rw [hl] at e
          exact absurd e (by decide)
      have h3 : matchDe v = false := by
        cases hx : matchDe v
        · rfl
        · have e := take_one_of_take_two (matchDe_take v hx)
          rw [hl] at e
          exact absurd e (by decide)
      have h4 : matchUs v = false := by
        cases hx : matchUs v
        · rfl
        · have e := take_one_of_take_two (matchUs_take v hx)
          rw [hl] at e
          exact absurd e (by decide)
      simp [detectPhone, ← hv, h, h1, h2, h3, h4]
    · intro h1 h2 h3 h4 h5
      simp [detectPhone, ← hv, h1, h2, h3, h4, h5]

/-- Witness for C8: the Germany rule applied to a number containing spaces. -/
theorem detectPhone_classification_witness :
    detectPhone labelsFr "+49 30 123456" = labelsFr.de :=
  (detectPhone_classification.2.2.1 labelsFr "+49 30 123456").2.2.1 (by decide)

theorem digitChar_isDigit {m : Nat} (h : m < 10) : (Nat.digitChar m).isDigit := by
  interval_cases m <;> decide

theorem toDigitsCore_all_digits (f : Nat) :
    ∀ (n : Nat) (acc : List Char), (∀ c ∈ acc, c.isDigit) →
      ∀ c ∈ Nat.toDigitsCore 10 f n acc, c.isDigit := by
  induction f with
  | zero =>
    intro n acc hacc c hc
    exact hacc c hc
  | succ f ih =>
    intro n acc hacc c hc
    rw [Nat.toDigitsCore] at hc
    have hd : (Nat.digitChar (n % 10)).isDigit :=
      digitChar_isDigit (Nat.mod_lt n (by decide))
    by_cases h10 : n / 10 = 0
    · rw [if_pos h10] at hc
      rcases List.mem_cons.mp hc with rfl | hc
      · exact hd
      · exact hacc c hc
    · rw [if_neg h10] at hc
      refine ih (n / 10) (Nat.digitChar (n % 10) :: acc) ?_ c hc
      intro x hx
      rcases List.mem_cons.mp hx with rfl | hx
      · exact hd
      · exact hacc x hx

theorem natRepr_all_digits (n : Nat) : ∀ c ∈ (Nat.repr n).toList, c.isDigit := by
  have hr : (Nat.repr n).toList = Nat.toDigitsCore 10 (n + 1) n [] := rfl
  rw [hr]
  exact toDigitsCore_all_digits (n + 1) n [] (by simp)

theorem intToString_digit_or_dash (i : Int) :
    ∀ c ∈ (toString i).toList, c.isDigit ∨ c = '-' := by
  have hr : toString i = Int.repr i := rfl
  rw [hr]
  cases i with
  | ofNat n =>
    intro c hc
    exact Or.inl (natRepr_all_digits n c hc)
  | negSucc n =>
    intro c hc
    have he : Int.repr (Int.negSucc n) = "-" ++ Nat.repr (n + 1) := rfl
    rw [he, string_toList_append] at hc
    rcases List.mem_append.mp hc with hc | hc
    · right
      simpa using hc
    · exact Or.inl (natRepr_all_digits (n + 1) c hc)

theorem escapeHtmlChar_eq_self {c : Char} (h : c.isDigit ∨ c = '-') :
    escapeHtmlChar c = [c] := by
  have h1 : c ≠ '&' := by rintro rfl; revert h; decide
  have h2 : c ≠ '<' := by rintro rfl; revert h; decide
  have h3 : c ≠ '>' := by rintro rfl; revert h; decide
  have h4 : c ≠ '\u00A0' := by rintro rfl; revert h; decide
  simp [escapeHtmlChar, h1, h2, h3, h4]

theorem flatMap_escapeHtmlChar_eq_self :
    ∀ l : List Char, (∀ c ∈ l, c.isDigit ∨ c = '-') → l.flatMap escapeHtmlChar = l := by
  intro l hl
  induction l with
  | nil => rfl
  | cons c l ih =>
    rw [List.flatMap_cons, escapeHtmlChar_eq_self (hl c (by simp))]
    have := ih (fun x hx => hl x (by simp [hx]))
    rw [this]
    rfl

theorem escapeHtml_toString_int (i : Int) : escapeHtml (toString i) = toString i := by
  unfold escapeHtml
  rw [flatMap_escapeHtmlChar_eq_self _ (intToString_digit_or_dash i)]
  cases h : toString i
  rfl

theorem escapeHtmlChar_no_angle (c : Char) :
    '<' ∉ escapeHtmlChar c ∧ '>' ∉ escapeHtmlChar c := by
  unfold escapeHtmlChar
  by_cases h1 : c == '&'
  · simp [h1]
  · by_cases h2 : c == '<'
    · simp [h1, h2]
    · by_cases h3 : c == '>'
      · simp [h1, h2, h3]
      · by_cases h4 : c == '\u00A0'
        · simp [h1, h2, h3, h4]
        · simp only [h1, h2, h3, h4, if_false, Bool.false_eq_true]
          constructor
          · simp
            intro he
            rw [he] at h2
            simp at h2
          · simp
            intro he
            rw [he] at h3
            simp at h3

theorem escapeHtml_no_angle (value : String) :
    '<' ∉ (escapeHtml value).toList ∧ '>' ∉ (escapeHtml value).toList := by
  unfold escapeHtml
  have hl : ∀ l : List Char, '<' ∉ l.flatMap escapeHtmlChar ∧ '>' ∉ l.flatMap escapeHtmlChar := by
    intro l
    induction l with
    | nil => simp
    | cons c l ih =>
      rw [List.flatMap_cons]
      constructor
      · intro hmem
        rcases List.mem_append.mp hmem with h | h
        · exact (escapeHtmlChar_no_angle c).1 h
        · exact ih.1 h
      · intro hmem
        rcases List.mem_append.mp hmem with h | h
        · exact (escapeHtmlChar_no_angle c).2 h
        · exact ih.2 h
  exact hl value.toList

theorem renderUserItem_eq_spec (selectedUserId : Option Int) (user : ChatUser) :
    renderUserItem selectedUserId user = renderUserItemSpec selectedUserId user := by
  unfold renderUserItem renderUserItemSpec
  rw [escapeHtml_toString_int]

theorem renderMessageItem_eq_spec (currentUserId : Int) (message : ChatMessage) :
    renderMessageItem currentUserId message = renderMessageItemSpec currentUserId message :=
  rfl

/-- C6: the roster and message renderings coincide with the specification-side
renderings in which every server-supplied field is passed through
`escapeHtml`, and an escaped value never contains a tag delimiter, so no
user-originated value can inject markup through the escaped interpolations. -/
theorem rendering_escapes_untrusted_content :
    (∀ (selectedUserId : Option Int) (users : List ChatUser),
      renderUsersHtml selectedUserId users = renderUsersHtmlSpec selectedUserId users) ∧
    (∀ (currentUserId : Int) (messages : List ChatMessage),
      renderMessagesHtml currentUserId messages =
        renderMessagesHtmlSpec currentUserId messages) ∧
    (∀ value : String,
      '<' ∉ (escapeHtml value).toList ∧ '>' ∉ (escapeHtml value).toList) := by
  refine ⟨?_, ?_, escapeHtml_no_angle⟩
  · intro sel users
    unfold renderUsersHtml renderUsersHtmlSpec
    rw [List.map_congr_left (fun u _ => renderUserItem_eq_spec sel u)]
  · intro cur messages
    unfold renderMessagesHtml renderMessagesHtmlSpec
    rw [List.map_congr_left (fun m _ => renderMessageItem_eq_spec cur m)]

/-- Witness for C6: an escaped script fragment contains no angle brackets. -/
theorem rendering_escapes_untrusted_content_witness :
    '<' ∉ (escapeHtml "<script>alert(1)</script>").toList :=
  (rendering_escapes_untrusted_content.2.2 "<script>alert(1)</script>").1
